import Mathlib

/-!
Shallow embedding of `real_options_v1.py`, a single-pass Least-Squares
Monte Carlo (LSMC) real-option valuation script.  Machine floats are
modelled by exact real arithmetic; the pseudo-random source
(`np.random.RandomState(1)`) is modelled as a stream `g : ℕ → ℝ` of
standard-normal draws listed in the exact order the program consumes them.
Matrices `n_sim × T` become functions `Fin n → ℕ → ℝ` (row = simulation,
column = period); numpy column slices become sums over `Finset.range` /
`Finset.Ico`.

The valuation layer is stated for an arbitrary simulation count `n`,
arbitrary path matrices and an arbitrary buyout price, because several
claims quantify over those; the script's literal constants are kept as
named definitions and the script's own run is the instantiation at
`n_sim`, `price g`, `opex g`, `buyout`.
-/

noncomputable section

namespace RealOptions

/-! ## Literal constants of the script (lines 54-79) -/

/-- Embeds `T = 10` time periods. -/
def T : ℕ := 10

/-- Embeds `n_sim = 1000` simulations. -/
def n_sim : ℕ := 1000

/-- Embeds `buyout = 100`. -/
def buyout : ℝ := 100

/-- Embeds `buy_year = 5`. -/
def buy_year : ℕ := 5

/-- Embeds `r = 0.05` risk-free rate. -/
def r : ℝ := 0.05

/-- Embeds `price_0 = 50`. -/
def price_0 : ℝ := 50

/-- Embeds `price_sigma = 0.3`. -/
def price_sigma : ℝ := 0.3

/-- Embeds `roy_rate = 0.125`. -/
def roy_rate : ℝ := 0.125

/-- Embeds `opex_0 = 25`. -/
def opex_0 : ℝ := 25

/-- Embeds `opex_k = 0.5`. -/
def opex_k : ℝ := 0.5

/-- Embeds `opex_lr = 30`. -/
def opex_lr : ℝ := 30

/-- Embeds `opex_sigma = 0.25`. -/
def opex_sigma : ℝ := 0.25

/-- Embeds `quant = np.logspace(1, 0, T)`: ten log-spaced values from 10 down
to 1, i.e. `quant[j] = 10 ** (1 - j/9)`. -/
def quant (j : ℕ) : ℝ := Real.rpow 10 (1 - (j : ℝ) / 9)

/-- Embeds `capex = 1250`. -/
def capex : ℝ := 1250

/-- Embeds `tax_rate = 0.21`. -/
def tax_rate : ℝ := 0.21

/-- Embeds `depr_sch`: the literal 7-year MACRS depreciation schedule array. -/
def depr_sch : Fin 8 → ℝ :=
  ![0.1429, 0.2449, 0.1749, 0.1249, 0.0893, 0.0892, 0.0893, 0.0446]

/-- The same literal schedule as a list of exact rationals (used to state
the design invariant on its sum). -/
def depr_sch_q : List ℚ :=
  [0.1429, 0.2449, 0.1749, 0.1249, 0.0893, 0.0892, 0.0893, 0.0446]

/-- Embeds `np.r_[depr_sch, np.zeros(T - len(depr_sch))]`: the schedule extended
by zeros past its length (line 105). -/
def depr_ext (j : ℕ) : ℝ := if h : j < 8 then depr_sch ⟨j, h⟩ else 0

/-! ## Path simulator (lines 85-96)

The loop `for t in np.arange(1, T)` draws `rng.randn(n_sim)` first for the
price update and then again for the opex update.  `rngOff t` is the number
of draws consumed after the loop iterations for periods `1 .. t`; the
draw for (simulation `i`, period `t+1`) used by the price update is stream
element `rngOff t + i`, and the one used by the opex update is
`rngOff t + n_sim + i`. -/

/-- Number of random draws consumed by the simulation loop after
producing periods `1 .. t` (each iteration consumes `n_sim` price draws
followed by `n_sim` opex draws). -/
def rngOff : ℕ → ℕ
  | 0 => 0
  | t + 1 => rngOff t + n_sim + n_sim

/-- Price paths (line 91-92):
`price[:, t] = price[:, t-1] * exp(-0.5*price_sigma**2*1 + price_sigma*Z)`
with `price[:, 0] = price_0`. -/
def priceSim (g : ℕ → ℝ) : ℕ → Fin n_sim → ℝ
  | 0 => fun _ => price_0
  | t + 1 => fun i =>
      priceSim g t i *
        Real.exp (-0.5 * price_sigma ^ 2 * 1 + price_sigma * g (rngOff t + i))

/-- Opex paths (line 95-96):
`opex[:, t] = exp(log(opex[:, t-1]) + opex_k*(log(opex_lr) - log(opex[:, t-1]))*1 + opex_sigma*Z)`
with `opex[:, 0] = opex_0`. -/
def opexSim (g : ℕ → ℝ) : ℕ → Fin n_sim → ℝ
  | 0 => fun _ => opex_0
  | t + 1 => fun i =>
      Real.exp (Real.log (opexSim g t i) +
        opex_k * (Real.log opex_lr - Real.log (opexSim g t i)) * 1 +
        opex_sigma * g (rngOff t + n_sim + i))

/-- The price matrix of the script, row = simulation, column = period. -/
def price (g : ℕ → ℝ) : Fin n_sim → ℕ → ℝ := fun i t => priceSim g t i

/-- The opex matrix of the script. -/
def opex (g : ℕ → ℝ) : Fin n_sim → ℕ → ℝ := fun i t => opexSim g t i

/-! ## Cash-flow engine (lines 99-107), generic in the path matrices -/

/-- Embeds `rev_gross = price * quant` (line 99). -/
def rev_gross (n : ℕ) (P : Fin n → ℕ → ℝ) (i : Fin n) (j : ℕ) : ℝ :=
  P i j * quant j

/-- Embeds `roy = rev_gross * roy_rate` (line 100). -/
def roy (n : ℕ) (P : Fin n → ℕ → ℝ) (i : Fin n) (j : ℕ) : ℝ :=
  rev_gross n P i j * roy_rate

/-- Embeds `rev_net = rev_gross - roy` (line 101). -/
def rev_net (n : ℕ) (P : Fin n → ℕ → ℝ) (i : Fin n) (j : ℕ) : ℝ :=
  rev_gross n P i j - roy n P i j

/-- Embeds `btcf = rev_net - opex` (line 103). -/
def btcf (n : ℕ) (P O : Fin n → ℕ → ℝ) (i : Fin n) (j : ℕ) : ℝ :=
  rev_net n P i j - O i j

/-- Embeds `tax = tax_rate * (btcf - capex * np.r_[depr_sch, zeros])` (line 105). -/
def tax (n : ℕ) (P O : Fin n → ℕ → ℝ) (i : Fin n) (j : ℕ) : ℝ :=
  tax_rate * (btcf n P O i j - capex * depr_ext j)

/-- Embeds `atcf = btcf - tax` (line 107). -/
def atcf (n : ℕ) (P O : Fin n → ℕ → ℝ) (i : Fin n) (j : ℕ) : ℝ :=
  btcf n P O i j - tax n P O i j

/-! ## Valuation engine (lines 114-142) -/

/-- Embeds `dis_fact = [(1 + r)**(-i - 1) for i in range(T)]` (line 114). -/
def dis_fact (i : ℕ) : ℝ := (1 + r) ^ (-(i : ℤ) - 1)

/-- Embeds `npv = (atcf * dis_fact).sum(axis=1)` (line 117). -/
def npv (n : ℕ) (P O : Fin n → ℕ → ℝ) (i : Fin n) : ℝ :=
  ∑ j ∈ Finset.range T, atcf n P O i j * dis_fact j

/-- Embeds `npv_cont = (atcf[:, buy_year:] * dis_fact[buy_year:]).sum(axis=1)`
(line 119). -/
def npv_cont (n : ℕ) (P O : Fin n → ℕ → ℝ) (i : Fin n) : ℝ :=
  ∑ j ∈ Finset.Ico buy_year T, atcf n P O i j * dis_fact j

/-- The inline slice `(atcf[:, :buy_year] * dis_fact[:buy_year]).sum(axis=1)`
of line 138. -/
def npv_pre (n : ℕ) (P O : Fin n → ℕ → ℝ) (i : Fin n) : ℝ :=
  ∑ j ∈ Finset.range buy_year, atcf n P O i j * dis_fact j

/-- Embeds `X_price = price[:, buy_year]` (line 122). -/
def X_price (n : ℕ) (P : Fin n → ℕ → ℝ) (i : Fin n) : ℝ := P i buy_year

/-- Embeds `X_opex = opex[:, buy_year]` (line 123). -/
def X_opex (n : ℕ) (O : Fin n → ℕ → ℝ) (i : Fin n) : ℝ := O i buy_year

/-- Sample mean over the simulations, numpy's `.mean(axis=0)`. -/
def mean (n : ℕ) (f : Fin n → ℝ) : ℝ := (∑ i, f i) / n

/-! ## The regression (lines 127-132)

`sklearn.linear_model.LinearRegression()` with its default
`fit_intercept=True` centers the two regressor columns and the target,
solves the least-squares problem on the centered data by `lstsq`
(the minimum-norm / pseudo-inverse solution when the centered Gram matrix
`[[s00, s01], [s01, s11]]` is singular), and sets the intercept to
`mean y - coef · mean X`.  In exact arithmetic this is the closed form
below: Cramer's rule when the Gram determinant is nonzero; on a singular
but nonzero Gram matrix (a rank-one symmetric PSD matrix `G` with nonzero
eigenvalue `trace G = s00 + s11`) the pseudo-inverse is
`G / (s00 + s11)^2`; on the zero matrix the solution is `0`. -/

namespace OLS

/-- Centered second moment of the first regressor. -/
def s00 (n : ℕ) (x0 : Fin n → ℝ) : ℝ :=
  ∑ i, (x0 i - mean n x0) * (x0 i - mean n x0)

/-- Centered cross moment of the two regressors. -/
def s01 (n : ℕ) (x0 x1 : Fin n → ℝ) : ℝ :=
  ∑ i, (x0 i - mean n x0) * (x1 i - mean n x1)

/-- Centered second moment of the second regressor. -/
def s11 (n : ℕ) (x1 : Fin n → ℝ) : ℝ :=
  ∑ i, (x1 i - mean n x1) * (x1 i - mean n x1)

/-- Centered moment of the first regressor against the target. -/
def s0y (n : ℕ) (x0 y : Fin n → ℝ) : ℝ :=
  ∑ i, (x0 i - mean n x0) * (y i - mean n y)

/-- Centered moment of the second regressor against the target. -/
def s1y (n : ℕ) (x1 y : Fin n → ℝ) : ℝ :=
  ∑ i, (x1 i - mean n x1) * (y i - mean n y)

/-- Determinant of the centered Gram matrix. -/
def det (n : ℕ) (x0 x1 : Fin n → ℝ) : ℝ :=
  s00 n x0 * s11 n x1 - s01 n x0 x1 * s01 n x0 x1

/-- First fitted coefficient (`regr.coef_[0]`). -/
def coef0 (n : ℕ) (x0 x1 y : Fin n → ℝ) : ℝ :=
  if det n x0 x1 ≠ 0 then
    (s11 n x1 * s0y n x0 y - s01 n x0 x1 * s1y n x1 y) / det n x0 x1
  else if s00 n x0 + s11 n x1 ≠ 0 then
    (s00 n x0 * s0y n x0 y + s01 n x0 x1 * s1y n x1 y) /
      (s00 n x0 + s11 n x1) ^ 2
  else 0

/-- Second fitted coefficient (`regr.coef_[1]`). -/
def coef1 (n : ℕ) (x0 x1 y : Fin n → ℝ) : ℝ :=
  if det n x0 x1 ≠ 0 then
    (s00 n x0 * s1y n x1 y - s01 n x0 x1 * s0y n x0 y) / det n x0 x1
  else if s00 n x0 + s11 n x1 ≠ 0 then
    (s01 n x0 x1 * s0y n x0 y + s11 n x1 * s1y n x1 y) /
      (s00 n x0 + s11 n x1) ^ 2
  else 0

/-- Fitted intercept (`regr.intercept_`): `mean y - coef · mean X`. -/
def intercept (n : ℕ) (x0 x1 y : Fin n → ℝ) : ℝ :=
  mean n y - coef0 n x0 x1 y * mean n x0 - coef1 n x0 x1 y * mean n x1

/-- Embeds `regr.predict(X)` at sample `i`. -/
def predict (n : ℕ) (x0 x1 y : Fin n → ℝ) (i : Fin n) : ℝ :=
  intercept n x0 x1 y + coef0 n x0 x1 y * x0 i + coef1 n x0 x1 y * x1 i

end OLS

/-- Embeds `cv_pred = regr.predict(X)` (line 132): predicted continuation value. -/
def cv_pred (n : ℕ) (P O : Fin n → ℕ → ℝ) (i : Fin n) : ℝ :=
  OLS.predict n (X_price n P) (X_opex n O) (npv_cont n P O) i

/-- Embeds `max_val = np.maximum(cv_pred, buyout)` (line 136), for an arbitrary
buyout price `b`. -/
def max_val (n : ℕ) (P O : Fin n → ℕ → ℝ) (b : ℝ) (i : Fin n) : ℝ :=
  max (cv_pred n P O i) b

/-- Embeds `enpv_w_opt` (lines 138-139). -/
def enpv_w_opt (n : ℕ) (P O : Fin n → ℕ → ℝ) (b : ℝ) : ℝ :=
  mean n (npv_pre n P O) + mean n (max_val n P O b) - capex

/-- Embeds `enpv_wo_opt = npv.mean(axis=0) - capex` (line 141). -/
def enpv_wo_opt (n : ℕ) (P O : Fin n → ℕ → ℝ) : ℝ :=
  mean n (npv n P O) - capex

/-- Embeds `opt_val = enpv_w_opt - enpv_wo_opt` (line 142). -/
def opt_val (n : ℕ) (P O : Fin n → ℕ → ℝ) (b : ℝ) : ℝ :=
  enpv_w_opt n P O b - enpv_wo_opt n P O

/-! ## The script's own run: the three printed numbers (lines 144-146) -/

/-- The printed "ENPV without the option" as a function of the draw
stream. -/
def enpv_wo_opt_run (g : ℕ → ℝ) : ℝ := enpv_wo_opt n_sim (price g) (opex g)

/-- The printed "ENPV with the option" as a function of the draw stream. -/
def enpv_w_opt_run (g : ℕ → ℝ) : ℝ :=
  enpv_w_opt n_sim (price g) (opex g) buyout

/-- The printed option value as a function of the draw stream. -/
def opt_val_run (g : ℕ → ℝ) : ℝ :=
  opt_val n_sim (price g) (opex g) buyout

/-- All-zero path matrices on a single simulation, used as concrete
inputs. -/
def zeroM : Fin 1 → ℕ → ℝ := fun _ _ => 0

/-- All-zero path matrices on three simulations, used as concrete
inputs. -/
def zeroM3 : Fin 3 → ℕ → ℝ := fun _ _ => 0

end RealOptions

namespace RealOptions

/-! ## Helper lemmas -/

/-- The mean of a pointwise sum is the sum of the means. -/
theorem mean_add (n : ℕ) (f g : Fin n → ℝ) :
    mean n (fun i => f i + g i) = mean n f + mean n g := by
  unfold mean
  rw [Finset.sum_add_distrib, add_div]

/-- Means are monotone in the pointwise order. -/
theorem mean_le_mean (n : ℕ) (hn : 0 < n) (f g : Fin n → ℝ)
    (h : ∀ i, f i ≤ g i) : mean n f ≤ mean n g := by
  unfold mean
  rw [div_le_div_iff_of_pos_right (by exact_mod_cast hn)]
  exact Finset.sum_le_sum fun i _ => h i

/-- Because the fitted intercept is `mean y - coef · mean X`, the sample
mean of the fitted predictions equals the sample mean of the targets —
for any coefficient values, hence also in the rank-deficient branches. -/
theorem OLS.mean_predict (n : ℕ) (hn : 0 < n) (x0 x1 y : Fin n → ℝ) :
    mean n (OLS.predict n x0 x1 y) = mean n y := by
  have hne : (n : ℝ) ≠ 0 := Nat.cast_ne_zero.mpr hn.ne'
  unfold OLS.predict OLS.intercept mean
  rw [Finset.sum_add_distrib, Finset.sum_add_distrib, Finset.sum_const,
    ← Finset.mul_sum, ← Finset.mul_sum]
  simp only [Finset.card_univ, Fintype.card_fin, nsmul_eq_mul]
  field_simp
  ring

/-- The full-horizon NPV splits into the pre-decision part and the
continuation part. -/
theorem npv_split (n : ℕ) (P O : Fin n → ℕ → ℝ) (i : Fin n) :
    npv n P O i = npv_pre n P O i + npv_cont n P O i := by
  unfold npv npv_pre npv_cont
  rw [Finset.range_eq_Ico]
  exact (Finset.sum_Ico_consecutive _ (Nat.zero_le _) (by decide)).symm

/-- The option value is the mean of the floored values minus the mean of
the continuation values. -/
theorem opt_val_eq (n : ℕ) (P O : Fin n → ℕ → ℝ) (b : ℝ) :
    opt_val n P O b = mean n (max_val n P O b) - mean n (npv_cont n P O) := by
  unfold opt_val enpv_w_opt enpv_wo_opt
  have h : mean n (npv n P O) = mean n (npv_pre n P O) + mean n (npv_cont n P O) := by
    rw [← mean_add]
    unfold mean
    congr 1
    exact Finset.sum_congr rfl fun i _ => npv_split n P O i
  rw [h]
  ring

/-- The mean of the predicted continuation values equals the mean of the
realized continuation values. -/
theorem mean_cv_pred (n : ℕ) (hn : 0 < n) (P O : Fin n → ℕ → ℝ) :
    mean n (cv_pred n P O) = mean n (npv_cont n P O) := by
  unfold cv_pred
  exact OLS.mean_predict n hn _ _ _

end RealOptions

namespace RealOptions

/-- Every depreciation fraction of the extended schedule is nonnegative. -/
theorem depr_ext_nonneg (j : ℕ) : 0 ≤ depr_ext j := by
  unfold depr_ext
  split
  · rename_i h
    interval_cases j <;> norm_num [depr_sch]
  · exact le_refl 0

/-- Discount factors are strictly positive. -/
theorem dis_fact_pos (j : ℕ) : 0 < dis_fact j := by
  unfold dis_fact
  apply zpow_pos
  norm_num [r]

/-- On the all-zero paths, the after-tax cash flow is the depreciation
tax credit, hence nonnegative. -/
theorem atcf_zeroM_nonneg (i : Fin 1) (j : ℕ) : 0 ≤ atcf 1 zeroM zeroM i j := by
  have h := depr_ext_nonneg j
  simp only [atcf, btcf, rev_net, roy, rev_gross, tax, zeroM]
  norm_num [tax_rate, capex]
  nlinarith

/-- On the all-zero paths, the realized continuation value is
nonnegative. -/
theorem npv_cont_zeroM_nonneg : 0 ≤ npv_cont 1 zeroM zeroM 0 := by
  unfold npv_cont
  apply Finset.sum_nonneg
  intro j hj
  exact mul_nonneg (atcf_zeroM_nonneg 0 j) (dis_fact_pos j).le

/-- With a single sample all centered moments vanish, both coefficients
fall into the zero branch, and the prediction is the single target. -/
theorem OLS.predict_one (x0 x1 y : Fin 1 → ℝ) (i : Fin 1) :
    OLS.predict 1 x0 x1 y i = y 0 := by
  have h00 : OLS.s00 1 x0 = 0 := by simp [OLS.s00, mean]
  have h01 : OLS.s01 1 x0 x1 = 0 := by simp [OLS.s01, mean]
  have h11 : OLS.s11 1 x1 = 0 := by simp [OLS.s11, mean]
  have hd : OLS.det 1 x0 x1 = 0 := by simp [OLS.det, h00, h01, h11]
  have hc0 : OLS.coef0 1 x0 x1 y = 0 := by
    simp [OLS.coef0, hd, h00, h11]
  have hc1 : OLS.coef1 1 x0 x1 y = 0 := by
    simp [OLS.coef1, hd, h00, h11]
  unfold OLS.predict OLS.intercept
  rw [hc0, hc1]
  simp [mean]

/-- With a single simulation, the predicted continuation value is the
realized one. -/
theorem cv_pred_one (P O : Fin 1 → ℕ → ℝ) (i : Fin 1) :
    cv_pred 1 P O i = npv_cont 1 P O 0 := by
  unfold cv_pred
  rw [OLS.predict_one]

end RealOptions

namespace RealOptions

/-- C1: if the buyout price is 0 and every predicted continuation value
`cv_pred` is nonnegative, the expected NPV with option equals the
expected NPV without option (the flooring at 0 never binds, and the OLS
fit with intercept makes the mean of predictions equal the mean of
targets), so the reported option value is 0. -/
theorem claim_C1 (n : ℕ) (P O : Fin n → ℕ → ℝ) (hn : 0 < n)
    (hcv : ∀ i, 0 ≤ cv_pred n P O i) :
    enpv_w_opt n P O 0 = enpv_wo_opt n P O := by
  have h := opt_val_eq n P O 0
  have hmax : mean n (max_val n P O 0) = mean n (cv_pred n P O) := by
    unfold mean
    congr 1
    exact Finset.sum_congr rfl fun i _ => max_eq_left (hcv i)
  have h2 : opt_val n P O 0 = 0 := by
    rw [h, hmax, mean_cv_pred n hn P O]
    ring
  unfold opt_val at h2
  linarith

/-- Witness for C1: a single all-zero path, where the prediction is the
realized continuation value, a nonnegative depreciation tax credit. -/
theorem claim_C1_witness :
    enpv_w_opt 1 zeroM zeroM 0 = enpv_wo_opt 1 zeroM zeroM :=
  claim_C1 1 zeroM zeroM (by norm_num)
    (fun i => by rw [cv_pred_one]; exact npv_cont_zeroM_nonneg)

/-- C2: for any buyout price and any path matrices with at least
regressors + 1 = 3 simulations, the reported option value is
nonnegative: the intercept makes the mean of `cv_pred` equal the mean of
`npv_cont`, and flooring at the buyout only increases each term. -/
theorem claim_C2 (n : ℕ) (P O : Fin n → ℕ → ℝ) (b : ℝ) (hn : 3 ≤ n) :
    0 ≤ opt_val n P O b := by
  have hn0 : 0 < n := by omega
  rw [opt_val_eq, ← mean_cv_pred n hn0 P O]
  have hle := mean_le_mean n hn0 (cv_pred n P O) (max_val n P O b)
    (fun i => le_max_left _ _)
  linarith

/-- Witness for C2: three all-zero paths and the script's buyout of 100. -/
theorem claim_C2_witness : 0 ≤ opt_val 3 zeroM3 zeroM3 100 :=
  claim_C2 3 zeroM3 zeroM3 100 (by norm_num)

/-- C4: the expected NPV with option is the mean of the discounted
pre-decision cash flows plus the mean of `max(cv_pred, buyout)` minus
CAPEX, where the value floored at the buyout is the regression's fitted
prediction for that simulation, not the simulation's own realized
continuation cash flow `npv_cont`. -/
theorem claim_C4 (n : ℕ) (P O : Fin n → ℕ → ℝ) (b : ℝ) :
    enpv_w_opt n P O b =
      mean n (fun i => ∑ j ∈ Finset.range buy_year, atcf n P O i j * dis_fact j) +
        mean n (fun i =>
          max (OLS.predict n (X_price n P) (X_opex n O) (npv_cont n P O) i) b) -
        capex := rfl

/-- C5: the expected NPV without option is the mean of the full-horizon
NPV minus CAPEX, and the reported option value is the difference of the
two expected NPVs. -/
theorem claim_C5 (n : ℕ) (P O : Fin n → ℕ → ℝ) (b : ℝ) :
    enpv_wo_opt n P O = mean n (npv n P O) - capex ∧
      opt_val n P O b = enpv_w_opt n P O b - enpv_wo_opt n P O :=
  ⟨rfl, rfl⟩

end RealOptions

namespace RealOptions

/-- Closed form for the number of draws the loop has consumed: each of
the `t` completed iterations used `n_sim` price draws and then `n_sim`
opex draws. -/
theorem rngOff_eq (t : ℕ) : rngOff t = 2 * n_sim * t := by
  induction t with
  | zero => rfl
  | succ t ih =>
    unfold rngOff
    rw [ih]
    ring

/-- C3: the pipeline is deterministic — draw streams that agree
everywhere give identical printed outputs — and the single random source
is consumed in period-major order: the update producing period `t + 1`
reads, for simulation `i`, the price draw at stream position
`2*n_sim*t + i` (the block of `n_sim` price draws for that period) and
the opex draw at position `2*n_sim*t + n_sim + i` (the following block
of `n_sim` opex draws). -/
theorem claim_C3 :
    (∀ g1 g2 : ℕ → ℝ, (∀ k, g1 k = g2 k) →
      enpv_wo_opt_run g1 = enpv_wo_opt_run g2 ∧
        enpv_w_opt_run g1 = enpv_w_opt_run g2 ∧
        opt_val_run g1 = opt_val_run g2) ∧
    (∀ (g : ℕ → ℝ) (t : ℕ) (i : Fin n_sim),
      priceSim g (t + 1) i =
        priceSim g t i *
          Real.exp (-0.5 * price_sigma ^ 2 * 1 +
            price_sigma * g (2 * n_sim * t + i)) ∧
      opexSim g (t + 1) i =
        Real.exp (Real.log (opexSim g t i) +
          opex_k * (Real.log opex_lr - Real.log (opexSim g t i)) * 1 +
          opex_sigma * g (2 * n_sim * t + n_sim + i))) := by
  constructor
  · intro g1 g2 h
    have hg : g1 = g2 := funext h
    subst hg
    exact ⟨rfl, rfl, rfl⟩
  · intro g t i
    constructor
    · rw [priceSim, rngOff_eq]
    · rw [opexSim, rngOff_eq]

/-- Witness for C3: applying the determinism half at a concrete stream. -/
theorem claim_C3_witness :
    opt_val_run (fun _ => (0 : ℝ)) = opt_val_run (fun _ => (0 : ℝ)) :=
  (claim_C3.1 (fun _ => 0) (fun _ => 0) (fun _ => rfl)).2.2

/-- C8: every simulated opex value is strictly positive: the initial
value is 25 and every later period is the exponential of a real
number. -/
theorem claim_C8 (g : ℕ → ℝ) (i : Fin n_sim) (t : ℕ) : 0 < opex g i t := by
  show 0 < opexSim g t i
  induction t with
  | zero =>
    show (0 : ℝ) < opex_0
    norm_num [opex_0]
  | succ t ih =>
    rw [opexSim]
    exact Real.exp_pos _

/-- C9: for every simulation, period 0 of the price matrix is the
configured `price_0` and period 0 of the opex matrix is the configured
`opex_0` (the simulation recursion only ever produces later periods from
these fixed initial values, so they are never overwritten). -/
theorem claim_C9 (g : ℕ → ℝ) (i : Fin n_sim) :
    price g i 0 = price_0 ∧ opex g i 0 = opex_0 :=
  ⟨rfl, rfl⟩

end RealOptions

namespace RealOptions

/-- C6: the discount factor for 0-indexed period `i` is
`(1 + r) ^ (-(i + 1))`; the full-horizon NPV of a simulation is the sum
over all `T` periods of after-tax cash flow times the period's discount
factor; and the continuation value is that same discounted sum
restricted to the periods `j` with `buy_year ≤ j`, period `buy_year`
included. -/
theorem claim_C6 (n : ℕ) (P O : Fin n → ℕ → ℝ) (i : Fin n) :
    (∀ j : ℕ, dis_fact j = (1 + r) ^ (-((j : ℤ) + 1))) ∧
    npv n P O i = ∑ j ∈ Finset.range T, atcf n P O i j * dis_fact j ∧
    npv_cont n P O i =
      ∑ j ∈ (Finset.range T).filter (fun j => buy_year ≤ j),
        atcf n P O i j * dis_fact j := by
  refine ⟨fun j => ?_, rfl, ?_⟩
  · unfold dis_fact
    congr 1
    ring
  · unfold npv_cont
    congr 1

/-- C7: tax is the tax rate times before-tax cash flow minus CAPEX times
the depreciation fraction, where the fraction is the `j`-th schedule
entry for `j` below the schedule's length 8 and zero for later periods;
after-tax cash flow is before-tax cash flow minus tax; and tax can be
negative (no floor or cap), e.g. on an all-zero path in period 0. -/
theorem claim_C7 :
    (∀ (n : ℕ) (P O : Fin n → ℕ → ℝ) (i : Fin n) (j : ℕ),
      tax n P O i j =
        tax_rate * (btcf n P O i j -
          capex * (if h : j < 8 then depr_sch ⟨j, h⟩ else 0)) ∧
      atcf n P O i j = btcf n P O i j - tax n P O i j) ∧
    tax 1 zeroM zeroM 0 0 < 0 := by
  refine ⟨fun n P O i j => ⟨rfl, rfl⟩, ?_⟩
  have h0 : depr_ext 0 = 0.1429 := rfl
  simp only [tax, btcf, rev_net, roy, rev_gross, zeroM, h0]
  norm_num [tax_rate, capex]

/-- C10 counterexample: the literal schedule's exact rational sum is not
0.9999 — added digit by digit it is exactly 1. -/
theorem claim_C10_counterexample : depr_sch_q.sum ≠ 0.9999 := by
  norm_num [depr_sch_q]

/-- C10 (amended): the literal depreciation schedule sums to exactly the
rational 1, which is at most 1, and therefore the total depreciation
applied over the horizon never exceeds CAPEX. -/
theorem claim_C10 :
    depr_sch_q.sum = 1 ∧ (1 : ℚ) ≤ 1 ∧
      (∑ j ∈ Finset.range T, capex * depr_ext j) ≤ capex := by
  refine ⟨by norm_num [depr_sch_q], by norm_num, ?_⟩
  have e0 : depr_ext 0 = 0.1429 := rfl
  have e1 : depr_ext 1 = 0.2449 := rfl
  have e2 : depr_ext 2 = 0.1749 := rfl
  have e3 : depr_ext 3 = 0.1249 := rfl
  have e4 : depr_ext 4 = 0.0893 := rfl
  have e5 : depr_ext 5 = 0.0892 := rfl
  have e6 : depr_ext 6 = 0.0893 := rfl
  have e7 : depr_ext 7 = 0.0446 := rfl
  have e8 : depr_ext 8 = 0 := rfl
  have e9 : depr_ext 9 = 0 := rfl
  show (∑ j ∈ Finset.range 10, capex * depr_ext j) ≤ capex
  simp only [Finset.sum_range_succ, Finset.sum_range_zero,
    e0, e1, e2, e3, e4, e5, e6, e7, e8, e9]
  norm_num [capex]

end RealOptions
